import Mathlib

/-!
Shallow embedding of the DataHorders CDN TypeScript SDK request engine
(src/index.ts) and its error-normalization contract.

JavaScript values that flow through the engine are modelled explicitly:
JSON values as an inductive `Json` (numbers as integers, which covers every
value the SDK call sites pass), thrown JavaScript exceptions as either an
`Error` instance carrying a name and a message, or a thrown non-Error value.
The network is modelled as an explicit `FetchResult` argument describing what
the `fetch` call does for this request: either it resolves with an HTTP
response, or it rejects with a JavaScript exception. An HTTP response carries
its status, the outcome of `response.json()` (a parsed envelope or the
JavaScript `Error`, e.g. a SyntaxError, that the parse rejects with), the
outcome of `response.text()`, and the raw body bytes for `response.blob()`.
Exceptions are modelled by an explicit outcome type (`TryOutcome`) standing
for the body of the source `try` block, and the `catch` block is the total
function `settleOutcome`.
-/

set_option autoImplicit false

namespace CdnSdk

/-- A JSON value, as produced by `response.json()` or passed as a request
body. Numbers are modelled as integers: every numeric value the SDK call
sites send or inspect is an integer (page numbers, ports, counts). -/
inductive Json where
  | null
  | bool (b : Bool)
  | num (n : Int)
  | str (s : String)
  | arr (elems : List Json)
  | obj (fields : List (String × Json))

/-- JavaScript truthiness of a JSON value, as tested by `if (options.body)`. -/
def truthy : Json → Bool
  | .null => false
  | .bool b => b
  | .num n => n != 0
  | .str s => s != ""
  | .arr _ => true
  | .obj _ => true

/-- Truthiness of a possibly-undefined value (`none` models `undefined`). -/
def truthyOpt : Option Json → Bool
  | none => false
  | some j => truthy j

/-- A JavaScript `Error` instance: the only data the engine inspects are its
`name` and `message` properties. `response.json()` rejections (SyntaxError),
abort rejections (DOMException named AbortError) and network failures
(TypeError) are all of this shape. -/
structure JsError where
  name : String
  message : String
deriving DecidableEq, Repr

/-- A thrown JavaScript value reaching the `catch` block from the transport
layer: either an `Error` instance, or some non-Error value (JavaScript allows
throwing anything). -/
inductive JsException where
  | jsError (e : JsError)
  | nonError
deriving DecidableEq, Repr

/-- The structured error object of a failure envelope:
code, message and optional details, as received on the wire. -/
structure ApiErrorObject where
  code : String
  message : String
  details : Option Json

/-- The `error` field of a failure envelope is either a bare string or a
structured object (the duck-typed branch `typeof error === string`). -/
inductive ErrorField where
  | str (s : String)
  | obj (o : ApiErrorObject)

/-- Pagination metadata as carried by the wire envelope. -/
structure PaginationMeta where
  page : Nat
  perPage : Nat
  total : Nat
  totalPages : Nat
deriving DecidableEq, Repr

/-- The wire envelope, as the source casts the parsed JSON:
a `success` flag, an optional `data` payload, an optional `error` field
(absent when the response is success-shaped; `none` models `undefined`),
and optional pagination metadata. -/
structure Envelope where
  success : Bool
  data : Option Json
  error : Option ErrorField
  meta : Option PaginationMeta

/-- The Uniform Error (`DataHordersCDNError` in the source): message, code,
HTTP status (0 for non-HTTP failures) and optional details. The constructor
only stores `details` when it is not `undefined`, which `Option` captures. -/
structure DataHordersCDNError where
  message : String
  code : String
  status : Nat
  details : Option Json

/-- Raw binary payload of a response, for the blob path. -/
abbrev Blob := List Nat

/-- An HTTP response as observed by the engine: status, the outcome of
`response.json()` (parsed envelope, or the JavaScript `Error` the parse
rejects with), the text decoding of the body, and the raw bytes. -/
structure HttpResponse where
  status : Nat
  jsonBody : Except JsError Envelope
  textBody : String
  blobBody : Blob

/-- What the `fetch` call does for this request: resolve with a response, or
reject with a thrown JavaScript exception (abort, network failure, ...). -/
inductive FetchResult where
  | ok (resp : HttpResponse)
  | threw (e : JsException)

/-- `response.ok` of the WHATWG fetch API: status in the inclusive range
200 to 299. -/
def responseOk (status : Nat) : Bool :=
  200 ≤ status && status ≤ 299

/-- Expected response shape, `options.responseType` in the source
(defaulting to json). -/
inductive ResponseType where
  | json
  | blob
deriving DecidableEq, Repr

/-- A query-parameter value: `string | number | boolean` (the `undefined`
alternative is modelled by `Option` at the record level). -/
inductive ParamValue where
  | str (s : String)
  | num (n : Int)
  | bool (b : Bool)
deriving DecidableEq, Repr

/-- The options record of `HttpClient.request`. `params` entries carry
`none` for `undefined` values; the record itself is optional. -/
structure RequestOptions where
  body : Option Json
  params : Option (List (String × Option ParamValue))
  responseType : ResponseType

/-- The value a successful `request` resolves with: the parsed envelope on
the json path, the raw payload on the blob path. -/
inductive RequestValue where
  | json (envelope : Envelope)
  | blob (payload : Blob)

/-- Outcome of the source `try` block of `HttpClient.request`: a resolved
value, a thrown `DataHordersCDNError`, or a thrown JavaScript exception. -/
inductive TryOutcome where
  | value (v : RequestValue)
  | cdnError (e : DataHordersCDNError)
  | jsThrow (e : JsException)

/-- The body of the `try` block in `HttpClient.request`, lines 167 to 211 of
src/index.ts, given what `fetch` did. On the blob path a non-ok status reads
the body text and constructs REQUEST_FAILED (with the fallback literal for an
empty text, from `errorText || ...`); an ok status resolves with the raw
payload. On the json path, a `response.json()` rejection rethrows that
JavaScript error; otherwise, when the status is not ok or the envelope
`success` flag is falsy, the error field is inspected: a bare string becomes
an API_ERROR pair, a structured object is used as given, and an absent field
makes the property access `error.message` throw a TypeError, as it does on
`undefined` in JavaScript. -/
def tryBody (opts : RequestOptions) (world : FetchResult) : TryOutcome :=
  match world with
  | .threw e => .jsThrow e
  | .ok response =>
    if opts.responseType = .blob then
      if !responseOk response.status then
        .cdnError
          { message := if response.textBody = "" then "Request failed" else response.textBody
            code := "REQUEST_FAILED"
            status := response.status
            details := none }
      else
        .value (.blob response.blobBody)
    else
      match response.jsonBody with
      | .error e => .jsThrow (.jsError e)
      | .ok data =>
        if !responseOk response.status || !data.success then
          match data.error with
          | some (.str s) =>
            .cdnError { message := s, code := "API_ERROR", status := response.status, details := none }
          | some (.obj o) =>
            .cdnError { message := o.message, code := o.code, status := response.status, details := o.details }
          | none =>
            .jsThrow (.jsError { name := "TypeError", message := "Cannot read properties of undefined (reading message)" })
        else
          .value (.json data)

/-- The `catch` block of `HttpClient.request` applied to a thrown JavaScript
exception that is not a `DataHordersCDNError` (lines 219 to 238): an `Error`
named AbortError becomes TIMEOUT, any other `Error` becomes NETWORK_ERROR
carrying its message, and a non-Error throw becomes UNKNOWN_ERROR. Status is
0 in all three cases. -/
def normalizeException : JsException → DataHordersCDNError
  | .jsError e =>
    if e.name = "AbortError" then
      { message := "Request timeout", code := "TIMEOUT", status := 0, details := none }
    else
      { message := e.message, code := "NETWORK_ERROR", status := 0, details := none }
  | .nonError =>
    { message := "Unknown error occurred", code := "UNKNOWN_ERROR", status := 0, details := none }

/-- The full `catch` block (lines 212 to 239): a thrown `DataHordersCDNError`
is rethrown unchanged; any other thrown value is normalized. A resolved value
passes through. -/
def settleOutcome : TryOutcome → Except DataHordersCDNError RequestValue
  | .value v => .ok v
  | .cdnError e => .error e
  | .jsThrow e => .error (normalizeException e)

/-- Client configuration (`DataHordersCDNConfig`): required API key, optional
base URL, timeout and additional headers. -/
structure DataHordersCDNConfig where
  apiKey : String
  baseUrl : Option String
  timeout : Option Nat
  headers : Option (List (String × String))
deriving DecidableEq, Repr

/-- `DEFAULT_BASE_URL` from the source. -/
def DEFAULT_BASE_URL : String := "https://dashboard.datahorders.org/api/user/v1"

/-- `DEFAULT_TIMEOUT` from the source, in milliseconds. -/
def DEFAULT_TIMEOUT : Nat := 30000

/-- The regex replace of a single trailing slash, `replace slash-at-end`. -/
def stripTrailingSlash (s : String) : String :=
  if s.data.getLast? = some '/' then String.mk s.data.dropLast else s

/-- The engine state (`HttpClient` fields). -/
structure HttpClient where
  baseUrl : String
  apiKey : String
  timeout : Nat
  customHeaders : List (String × String)
deriving DecidableEq, Repr

/-- The `HttpClient` constructor: base URL defaulted then trimmed of a
trailing slash, timeout defaulted, custom headers defaulted to empty. -/
def HttpClient.ofConfig (config : DataHordersCDNConfig) : HttpClient :=
  { baseUrl := stripTrailingSlash (config.baseUrl.getD DEFAULT_BASE_URL)
    apiKey := config.apiKey
    timeout := config.timeout.getD DEFAULT_TIMEOUT
    customHeaders := config.headers.getD [] }

/-- `HttpClient.request`: the shared execution path, as a function of the
request description and of what the network did. The result is either the
resolved value or the single `DataHordersCDNError` that the engine raises.
The HTTP method does not influence how the outcome is settled. -/
def HttpClient.request (_client : HttpClient) (_method : String) (_path : String)
    (opts : RequestOptions) (world : FetchResult) : Except DataHordersCDNError RequestValue :=
  settleOutcome (tryBody opts world)

/-- JavaScript `String(value)` on a query-parameter value: strings unchanged,
integers in decimal, booleans as the words true and false. -/
def stringOfParam : ParamValue → String
  | .str s => s
  | .num n => toString n
  | .bool b => if b then "true" else "false"

/-- The defined query entries, in record insertion order: entries whose value
is `undefined` are dropped, the rest are stringified. This is the loop over
`Object.entries(options.params)` guarded by the `undefined` check. -/
def encodeQuery (params : List (String × Option ParamValue)) : List (String × String) :=
  params.filterMap fun e => e.2.map fun v => (e.1, stringOfParam v)

/-- Serialization of appended search parameters as `url.toString()` renders
them: empty when no parameter was appended, otherwise a question mark and
ampersand-separated key=value pairs. Percent-encoding is not modelled; every
name and value the claims exercise consists of characters that the WHATWG
URL serializer leaves unchanged. -/
def renderQuery (entries : List (String × String)) : String :=
  match entries with
  | [] => ""
  | _ => "?" ++ String.intercalate "&" (entries.map fun e => e.1 ++ "=" ++ e.2)

/-- URL construction of `HttpClient.request` (lines 144 to 153): the base URL
concatenated with the path, with the defined query entries appended. -/
def buildUrl (baseUrl path : String) (params : Option (List (String × Option ParamValue))) : String :=
  baseUrl ++ path ++ renderQuery (encodeQuery (params.getD []))

/-- The URL the engine constructs for a request. -/
def HttpClient.requestUrl (client : HttpClient) (path : String) (opts : RequestOptions) : String :=
  buildUrl client.baseUrl path opts.params

/-- Property assignment on a JavaScript record: overwrite the value in place
when the key is already present, append the pair otherwise. -/
def objInsert : List (String × String) → String → String → List (String × String)
  | [], k, v => [(k, v)]
  | (k0, v0) :: rest, k, v =>
    if k0 = k then (k0, v) :: rest else (k0, v0) :: objInsert rest k v

/-- Property lookup on a JavaScript record: the value stored at the first
entry carrying the key. -/
def getHeader : List (String × String) → String → Option String
  | [], _ => none
  | e :: rest, k => if e.1 = k then some e.2 else getHeader rest k

/-- Header construction of `HttpClient.request` (lines 155 to 162): a record
literal starting from the X-API-Key entry, spread with the configured custom
headers (a spread assigns each property in order, overwriting on collision),
then Content-Type set to application/json when the body is truthy. -/
def buildHeaders (apiKey : String) (customHeaders : List (String × String))
    (body : Option Json) : List (String × String) :=
  let base := customHeaders.foldl (fun m e => objInsert m e.1 e.2) [("X-API-Key", apiKey)]
  if truthyOpt body then objInsert base "Content-Type" "application/json" else base

/-- The headers the engine sends for a request. -/
def HttpClient.requestHeaders (client : HttpClient) (opts : RequestOptions) :
    List (String × String) :=
  buildHeaders client.apiKey client.customHeaders opts.body

/-- Escape of one character inside a JSON string literal (quote, backslash
and newline; other characters the SDK sends need no escaping). -/
def escapeJsonChar (c : Char) : String :=
  if c = '\"' then "\\\"" else if c = '\\' then "\\\\"
  else if c = '\n' then "\\n" else String.singleton c

/-- Escape of a string for a JSON string literal. -/
def escapeJsonString (s : String) : String :=
  String.join (s.toList.map escapeJsonChar)

mutual

/-- `JSON.stringify` on a JSON value. -/
def jsonStringify : Json → String
  | .null => "null"
  | .bool b => if b then "true" else "false"
  | .num n => toString n
  | .str s => "\"" ++ escapeJsonString s ++ "\""
  | .arr elems => "[" ++ jsonStringifyArray elems ++ "]"
  | .obj fields => "\x7b" ++ jsonStringifyFields fields ++ "\x7d"

/-- Comma-separated serialization of array elements. -/
def jsonStringifyArray : List Json → String
  | [] => ""
  | [x] => jsonStringify x
  | x :: y :: rest => jsonStringify x ++ "," ++ jsonStringifyArray (y :: rest)

/-- Comma-separated serialization of object fields. -/
def jsonStringifyFields : List (String × Json) → String
  | [] => ""
  | [e] => "\"" ++ escapeJsonString e.1 ++ "\":" ++ jsonStringify e.2
  | e :: f :: rest =>
    "\"" ++ escapeJsonString e.1 ++ "\":" ++ jsonStringify e.2 ++ "," ++
      jsonStringifyFields (f :: rest)

end

/-- The body attached to the outgoing fetch call (lines 174 to 176): the
JSON serialization of `options.body` when that value is truthy, nothing
otherwise (`fetchOptions.body` is then never assigned). -/
def requestBodyPayload (opts : RequestOptions) : Option String :=
  match opts.body with
  | some b => if truthy b then some (jsonStringify b) else none
  | none => none

/-- Query record built by `DomainsApi.list` (lines 324 to 328): the page,
perPage and verified keys are always present in the record, carrying
`undefined` when the caller did not supply them; verified is stringified by
`toString()` on the boolean. -/
def DomainsApi.listParams (page perPage : Option Nat) (verified : Option Bool) :
    List (String × Option ParamValue) :=
  [("page", page.map fun n => .num n),
   ("perPage", perPage.map fun n => .num n),
   ("verified", verified.map fun b => .str (if b then "true" else "false"))]

/-- An ACME certificate status value as returned by a status check: the
status string and the optional message field. -/
structure AcmeStatus where
  status : String
  message : Option String
deriving DecidableEq, Repr

/-- JavaScript string-or-fallback (`status.message || fallback`): the
fallback replaces an absent or empty (falsy) message. -/
def orFallback : Option String → String → String
  | none, fallback => fallback
  | some s, fallback => if s = "" then fallback else s

/-- The options record of `waitForActive`. -/
structure PollOptions where
  pollInterval : Option Nat
  timeout : Option Nat
deriving DecidableEq, Repr

/-- Wall-clock time at which the loop condition of `waitForActive` is
evaluated for the n-th time. Between consecutive evaluations the code awaits
`setTimeout(pollInterval)`, which resumes no earlier than `pollInterval`
milliseconds later; `extra n` is the additional nonnegative time the n-th
iteration spends in the status check and in scheduling. -/
def pollClock (startTime pollInterval : Nat) (extra : Nat → Nat) : Nat → Nat
  | 0 => startTime + extra 0
  | n + 1 => pollClock startTime pollInterval extra n + pollInterval + extra (n + 1)

/-- The polling loop of `waitForActive` (lines 585 to 607). `checks n` is the
status the n-th `getStatus` call resolves with; `clock n` is `Date.now()` at
the n-th loop-condition evaluation. The second component of a returned value
counts the inter-poll delays performed before returning; the source returns
the status alone, the count only instruments the timing claims. The fuel
argument bounds the recursion; `none` means the fuel was exhausted before the
loop exited, which never happens for the fuel `waitForActive` supplies when
the poll interval is positive. -/
def waitLoop (checks : Nat → AcmeStatus) (clock : Nat → Nat)
    (pollInterval timeout startTime : Nat) :
    Nat → Nat → Nat → Option (Except DataHordersCDNError (AcmeStatus × Nat))
  | 0, _, _ => none
  | fuel + 1, n, delays =>
    if clock n - startTime < timeout then
      let status := checks n
      if status.status = "active" then
        some (.ok (status, delays))
      else if status.status = "failed" ∨ status.status = "error" then
        some (.error
          { message := orFallback status.message "Certificate issuance failed"
            code := "CERTIFICATE_FAILED"
            status := 0
            details := none })
      else
        waitLoop checks clock pollInterval timeout startTime fuel (n + 1) (delays + 1)
    else
      some (.error
        { message := "Timeout waiting for certificate to become active"
          code := "TIMEOUT"
          status := 0
          details := none })

/-- `AcmeCertificatesApi.waitForActive` (lines 577 to 608): poll interval
defaulted to 10000 ms, overall deadline to 300000 ms, then the polling loop
from iteration 0. Fuel `timeout + 1` suffices for every positive poll
interval, because each iteration past the first advances the clock by at
least `pollInterval`. -/
def AcmeCertificatesApi.waitForActive (checks : Nat → AcmeStatus) (extra : Nat → Nat)
    (options : PollOptions) (startTime : Nat) :
    Option (Except DataHordersCDNError (AcmeStatus × Nat)) :=
  let pollInterval := options.pollInterval.getD 10000
  let timeout := options.timeout.getD 300000
  waitLoop checks (pollClock startTime pollInterval extra) pollInterval timeout startTime
    (timeout + 1) 0 0

/-! Concrete fixtures used to evaluate the definitions at specific inputs. -/

/-- A client configured with the base URL of the concrete URL scenario. -/
def sampleClient : HttpClient :=
  HttpClient.ofConfig
    { apiKey := "secret", baseUrl := some "https://api.example/v1", timeout := none, headers := none }

/-- A client whose custom headers collide with the credential header. -/
def overrideClient : HttpClient :=
  HttpClient.ofConfig
    { apiKey := "secret", baseUrl := none, timeout := none,
      headers := some [("X-API-Key", "intruder")] }

/-- Options of a plain JSON request with no body and no query. -/
def jsonOpts : RequestOptions :=
  { body := none, params := none, responseType := .json }

/-- Options of a download request. -/
def blobOpts : RequestOptions :=
  { body := none, params := none, responseType := .blob }

/-- HTTP 409 carrying the structured DOMAIN_EXISTS failure envelope. -/
def resp409 : HttpResponse :=
  { status := 409
    jsonBody := .ok
      { success := false, data := none
        error := some (.obj
          { code := "DOMAIN_EXISTS", message := "Domain already registered", details := none })
        meta := none }
    textBody := "", blobBody := [] }

/-- HTTP 500 whose body nevertheless parses as a success-shaped envelope. -/
def resp500 : HttpResponse :=
  { status := 500
    jsonBody := .ok { success := true, data := some (.str "payload"), error := none, meta := none }
    textBody := "", blobBody := [] }

/-- The success envelope of the 2xx scenario. -/
def env200 : Envelope :=
  { success := true, data := some (.arr []), error := none, meta := none }

/-- HTTP 200 with a success envelope. -/
def resp200 : HttpResponse :=
  { status := 200, jsonBody := .ok env200, textBody := "", blobBody := [] }

/-- HTTP 404 on the download path, with a plain-text body. -/
def resp404blob : HttpResponse :=
  { status := 404
    jsonBody := .error { name := "SyntaxError", message := "Unexpected token n" }
    textBody := "not found", blobBody := [] }

/-- HTTP 200 on the download path, with raw payload bytes. -/
def resp200blob : HttpResponse :=
  { status := 200
    jsonBody := .error { name := "SyntaxError", message := "Unexpected token P" }
    textBody := "PK", blobBody := [80, 75, 3, 4] }

/-- HTTP 200 whose body is not valid JSON: `response.json()` rejects with a
SyntaxError. -/
def respBadJson : HttpResponse :=
  { status := 200
    jsonBody := .error { name := "SyntaxError", message := "Unexpected token < in JSON" }
    textBody := "<html>", blobBody := [] }

/-- Status sequence pending, pending, active. -/
def checksActive : Nat → AcmeStatus :=
  fun n => if n < 2 then { status := "pending", message := none }
           else { status := "active", message := none }

/-- Status sequence pending then failed. -/
def checksFailed : Nat → AcmeStatus :=
  fun n => if n < 1 then { status := "pending", message := none }
           else { status := "failed", message := some "CAA forbids issuance" }

/-- Status sequence that never leaves pending. -/
def checksPending : Nat → AcmeStatus :=
  fun _ => { status := "pending", message := none }

/-- A run in which every iteration spends no extra time beyond the poll
interval. -/
def extraZero : Nat → Nat := fun _ => 0

/-!
Theorems settling the claims.
-/

/-- C1: on the JSON path, whenever the envelope has a false success flag or
the HTTP status is not a success status, the engine raises (never returns)
the Uniform Error built from the error field of the envelope: a bare string
yields code API_ERROR with that string as the message, a structured object
contributes its code, message and details as given, and in both cases the
raised status equals the HTTP response status. -/
theorem request_envelope_error (client : HttpClient) (method path : String)
    (opts : RequestOptions) (resp : HttpResponse) (env : Envelope) (ef : ErrorField)
    (hjson : opts.responseType = .json)
    (hbody : resp.jsonBody = .ok env)
    (hfail : responseOk resp.status = false ∨ env.success = false)
    (herr : env.error = some ef) :
    HttpClient.request client method path opts (.ok resp) =
      .error (match ef with
        | .str s =>
          { message := s, code := "API_ERROR", status := resp.status, details := none }
        | .obj o =>
          { message := o.message, code := o.code, status := resp.status, details := o.details }) := by
  rcases hfail with h | h <;> cases ef <;>
    simp [HttpClient.request, tryBody, settleOutcome, hjson, hbody, herr, h]

/-- Witness for C1: the concrete 409 DOMAIN_EXISTS scenario. -/
theorem request_envelope_error_witness :
    HttpClient.request sampleClient "POST" "/domains" jsonOpts (.ok resp409) =
      .error
        { message := "Domain already registered", code := "DOMAIN_EXISTS"
          status := 409, details := none } := by
  exact request_envelope_error sampleClient "POST" "/domains" jsonOpts resp409 _ _
    rfl rfl (Or.inl rfl) rfl

/-- C2: on the JSON path, a non-2xx status always makes the engine raise,
even when the body parses as a success envelope; and a 2xx status with a true
success flag makes the engine return the parsed envelope. -/
theorem request_status_gate (client : HttpClient) (method path : String)
    (opts : RequestOptions) (resp : HttpResponse) (env : Envelope)
    (hjson : opts.responseType = .json)
    (hbody : resp.jsonBody = .ok env) :
    (responseOk resp.status = false →
      ∃ e, HttpClient.request client method path opts (.ok resp) = .error e) ∧
    (responseOk resp.status = true → env.success = true →
      HttpClient.request client method path opts (.ok resp) = .ok (.json env)) := by
  constructor
  · intro h
    rcases hE : env.error with _ | ef
    · exact ⟨{ message := "Cannot read properties of undefined (reading message)"
               code := "NETWORK_ERROR", status := 0, details := none }, by
        simp [HttpClient.request, tryBody, settleOutcome, normalizeException, hjson, hbody, hE, h]⟩
    · cases ef with
      | str s =>
        exact ⟨{ message := s, code := "API_ERROR", status := resp.status, details := none }, by
          simp [HttpClient.request, tryBody, settleOutcome, hjson, hbody, hE, h]⟩
      | obj o =>
        exact ⟨{ message := o.message, code := o.code, status := resp.status, details := o.details }, by
          simp [HttpClient.request, tryBody, settleOutcome, hjson, hbody, hE, h]⟩
  · intro h hs
    simp [HttpClient.request, tryBody, settleOutcome, hjson, hbody, h, hs]

/-- Witness for C2: HTTP 500 with a success-shaped body still raises, and
HTTP 200 with a success envelope returns that envelope. -/
theorem request_status_gate_witness :
    (∃ e, HttpClient.request sampleClient "GET" "/domains" jsonOpts (.ok resp500) = .error e) ∧
    HttpClient.request sampleClient "GET" "/domains" jsonOpts (.ok resp200) = .ok (.json env200) :=
  ⟨(request_status_gate sampleClient "GET" "/domains" jsonOpts resp500 _ rfl rfl).1 rfl,
   (request_status_gate sampleClient "GET" "/domains" jsonOpts resp200 env200 rfl rfl).2 rfl rfl⟩

/-- C3: every thrown transport failure is reclassified into exactly one of
the three Uniform Errors: an Error named AbortError becomes TIMEOUT with
status 0 and the literal Request timeout message, any other Error becomes
NETWORK_ERROR with status 0 carrying that failure message, and a thrown
non-Error value becomes UNKNOWN_ERROR with status 0 and the literal
Unknown error occurred message. -/
theorem request_normalizes_thrown (client : HttpClient) (method path : String)
    (opts : RequestOptions) (je : JsException) :
    HttpClient.request client method path opts (.threw je) = .error (normalizeException je) ∧
    (∀ e : JsError, normalizeException (.jsError e) =
      if e.name = "AbortError" then
        { message := "Request timeout", code := "TIMEOUT", status := 0, details := none }
      else
        { message := e.message, code := "NETWORK_ERROR", status := 0, details := none }) ∧
    normalizeException .nonError =
      { message := "Unknown error occurred", code := "UNKNOWN_ERROR", status := 0, details := none } :=
  ⟨rfl, fun _ => rfl, rfl⟩

/-- C5: a Uniform Error constructed inside the shared execution path crosses
the engine boundary unchanged; the normalization step never re-wraps it. -/
theorem request_preserves_cdn_error (client : HttpClient) (method path : String)
    (opts : RequestOptions) (world : FetchResult) (e : DataHordersCDNError)
    (h : tryBody opts world = .cdnError e) :
    HttpClient.request client method path opts world = .error e := by
  simp [HttpClient.request, h, settleOutcome]

/-- Witness for C5: the REQUEST_FAILED error built on the binary branch is
exactly the error the engine raises. -/
theorem request_preserves_cdn_error_witness :
    HttpClient.request sampleClient "GET" "/certificates/abc/download" blobOpts (.ok resp404blob) =
      .error { message := "not found", code := "REQUEST_FAILED", status := 404, details := none } := by
  exact request_preserves_cdn_error sampleClient "GET" "/certificates/abc/download" blobOpts
    (.ok resp404blob) _ rfl

/-- Counterexample to C4: a 200 response whose body is not valid JSON makes
`response.json()` reject with a SyntaxError; as an Error instance not named
AbortError it is normalized to NETWORK_ERROR, not to UNKNOWN_ERROR. -/
theorem undecodable_success_body_counterexample :
    HttpClient.request sampleClient "GET" "/domains" jsonOpts (.ok respBadJson) =
      .error
        { message := "Unexpected token < in JSON", code := "NETWORK_ERROR"
          status := 0, details := none } ∧
    "NETWORK_ERROR" ≠ "UNKNOWN_ERROR" :=
  ⟨rfl, by decide⟩

/-- C4 as amended: on the JSON path, a response whose body cannot be decoded
as the envelope makes the engine raise a Uniform Error with code
NETWORK_ERROR, status 0, and the decode failure message (the decode failure
is a JavaScript Error, e.g. a SyntaxError, whose name is not AbortError). -/
theorem request_undecodable_success_body (client : HttpClient) (method path : String)
    (opts : RequestOptions) (resp : HttpResponse) (je : JsError)
    (hjson : opts.responseType = .json)
    (_hok : responseOk resp.status = true)
    (hbody : resp.jsonBody = .error je)
    (hname : je.name ≠ "AbortError") :
    HttpClient.request client method path opts (.ok resp) =
      .error { message := je.message, code := "NETWORK_ERROR", status := 0, details := none } := by
  simp [HttpClient.request, tryBody, settleOutcome, normalizeException, hjson, hbody, hname]

/-- Witness for the amended C4: the concrete SyntaxError scenario. -/
theorem request_undecodable_success_body_witness :
    HttpClient.request sampleClient "GET" "/zones" jsonOpts (.ok respBadJson) =
      .error
        { message := "Unexpected token < in JSON", code := "NETWORK_ERROR"
          status := 0, details := none } := by
  exact request_undecodable_success_body sampleClient "GET" "/zones" jsonOpts respBadJson _
    rfl rfl rfl (by decide)

/-- C8: on the binary path the engine never consults the JSON decoding of
the body (the outcome is unchanged under any replacement of it); a non-2xx
status raises REQUEST_FAILED with the response status and the body text as
the message, falling back to the literal Request failed when the text is
empty; and a 2xx status resolves with the raw payload. -/
theorem request_blob_path (client : HttpClient) (method path : String)
    (opts : RequestOptions) (resp : HttpResponse) (j : Except JsError Envelope)
    (hblob : opts.responseType = .blob) :
    HttpClient.request client method path opts (.ok resp) =
      HttpClient.request client method path opts (.ok { resp with jsonBody := j }) ∧
    (responseOk resp.status = false →
      HttpClient.request client method path opts (.ok resp) =
        .error
          { message := if resp.textBody = "" then "Request failed" else resp.textBody
            code := "REQUEST_FAILED", status := resp.status, details := none }) ∧
    (responseOk resp.status = true →
      HttpClient.request client method path opts (.ok resp) = .ok (.blob resp.blobBody)) := by
  obtain ⟨st, jb, tb, bb⟩ := resp
  refine ⟨?_, ?_, ?_⟩
  · simp [HttpClient.request, tryBody, settleOutcome, hblob]
  · intro h
    simp [HttpClient.request, tryBody, settleOutcome, hblob, h]
  · intro h
    simp [HttpClient.request, tryBody, settleOutcome, hblob, h]

/-- Witness for C8: the 404 download raises REQUEST_FAILED with the body
text, independently of the undecodable body, and the 200 download resolves
with the raw bytes. -/
theorem request_blob_path_witness :
    (HttpClient.request sampleClient "GET" "/certificates/abc/download" blobOpts (.ok resp404blob) =
      HttpClient.request sampleClient "GET" "/certificates/abc/download" blobOpts
        (.ok { resp404blob with jsonBody := .ok env200 })) ∧
    (HttpClient.request sampleClient "GET" "/certificates/abc/download" blobOpts (.ok resp404blob) =
      .error { message := "not found", code := "REQUEST_FAILED", status := 404, details := none }) ∧
    (HttpClient.request sampleClient "GET" "/certificates/abc/download" blobOpts (.ok resp200blob) =
      .ok (.blob [80, 75, 3, 4])) :=
  ⟨(request_blob_path sampleClient "GET" "/certificates/abc/download" blobOpts resp404blob
      (.ok env200) rfl).1,
   (request_blob_path sampleClient "GET" "/certificates/abc/download" blobOpts resp404blob
      (.ok env200) rfl).2.1 rfl,
   (request_blob_path sampleClient "GET" "/certificates/abc/download" blobOpts resp200blob
      (.ok env200) rfl).2.2 rfl⟩

/-- Helper: dropping the entries whose value is `undefined` does not change
the encoded query, because encoding already skips them. -/
theorem encodeQuery_filter_isSome (ps : List (String × Option ParamValue)) :
    encodeQuery (ps.filter fun e => e.2.isSome) = encodeQuery ps := by
  induction ps with
  | nil => rfl
  | cons e rest ih =>
    obtain ⟨k, v⟩ := e
    cases v with
    | none => simpa [encodeQuery, List.filter_cons] using ih
    | some pv => simpa [encodeQuery, List.filter_cons] using ih

/-- C6: the constructed URL appends exactly the query entries whose value is
defined (removing the undefined entries leaves the URL unchanged), values are
stringified deterministically (true to the word true, the number one to its
decimal digit), and the concrete scenario, a domains listing with verified
set and page and perPage unsupplied against the example base URL, yields
exactly the expected URL with no page or perPage component. -/
theorem request_url_spec :
    (∀ (baseUrl path : String) (ps : List (String × Option ParamValue)),
      buildUrl baseUrl path (some ps) =
        buildUrl baseUrl path (some (ps.filter fun e => e.2.isSome))) ∧
    stringOfParam (.bool true) = "true" ∧
    stringOfParam (.num 1) = "1" ∧
    HttpClient.requestUrl sampleClient "/domains"
      { body := none
        params := some (DomainsApi.listParams none none (some true))
        responseType := .json } =
      "https://api.example/v1/domains?verified=true" := by
  refine ⟨?_, rfl, rfl, by decide⟩
  intro baseUrl path ps
  simp [buildUrl, encodeQuery_filter_isSome]

/-- Helper: lookup after a record assignment sees the assigned value at that
key and is otherwise unchanged. -/
theorem getHeader_objInsert (m : List (String × String)) (k v k' : String) :
    getHeader (objInsert m k v) k' = if k' = k then some v else getHeader m k' := by
  induction m with
  | nil =>
    by_cases h : k' = k
    · subst h; simp [objInsert, getHeader]
    · have h2 : ¬ k = k' := fun hkk => h hkk.symm
      simp [objInsert, getHeader, h, h2]
  | cons e rest ih =>
    obtain ⟨k0, v0⟩ := e
    by_cases h0 : k0 = k
    · subst h0
      by_cases h : k' = k0
      · subst h; simp [objInsert, getHeader]
      · have h2 : ¬ k0 = k' := fun hkk => h hkk.symm
        simp [objInsert, getHeader, h, h2]
    · by_cases h : k' = k0
      · subst h
        simp [objInsert, getHeader, h0]
      · have h2 : ¬ k0 = k' := fun hkk => h hkk.symm
        simp [objInsert, getHeader, h0, h2, ih]

/-- Helper: a record fold of assignments leaves the lookup of an untouched
key unchanged. -/
theorem getHeader_foldl_not_mem (hs : List (String × String)) (m0 : List (String × String))
    (k : String) (h : k ∉ hs.map Prod.fst) :
    getHeader (hs.foldl (fun m e => objInsert m e.1 e.2) m0) k = getHeader m0 k := by
  induction hs generalizing m0 with
  | nil => rfl
  | cons e rest ih =>
    rw [List.foldl_cons, ih _ (fun hk => h (List.mem_cons_of_mem _ hk)), getHeader_objInsert]
    have hne : k ≠ e.1 := fun hk => h (hk ▸ List.mem_cons_self _ _)
    simp [hne]

/-- Helper: after folding a duplicate-free record of assignments, each
assigned key looks up its assigned value. -/
theorem getHeader_foldl_mem (hs : List (String × String)) (m0 : List (String × String))
    (k v : String) (hmem : (k, v) ∈ hs) (hnodup : (hs.map Prod.fst).Nodup) :
    getHeader (hs.foldl (fun m e => objInsert m e.1 e.2) m0) k = some v := by
  induction hs generalizing m0 with
  | nil => cases hmem
  | cons e rest ih =>
    rw [List.map_cons, List.nodup_cons] at hnodup
    rcases List.mem_cons.mp hmem with heq | hmem'
    · subst heq
      rw [List.foldl_cons,
        getHeader_foldl_not_mem rest _ k (by simpa using hnodup.1),
        getHeader_objInsert]
      simp
    · rw [List.foldl_cons]
      exact ih _ hmem' hnodup.2

/-- Counterexample to C9: when the configured additional headers themselves
contain an X-API-Key entry, the record spread overwrites the credential, so
the outgoing headers do not carry the configured API key. -/
theorem api_key_header_override_counterexample :
    getHeader (overrideClient.requestHeaders jsonOpts) "X-API-Key" = some "intruder" ∧
    overrideClient.apiKey = "secret" ∧
    getHeader (overrideClient.requestHeaders jsonOpts) "X-API-Key" ≠ some overrideClient.apiKey := by
  refine ⟨rfl, rfl, ?_⟩
  intro h
  exact absurd (Option.some.inj h) (by decide)

/-- C9 as amended: for every request whose configured additional headers
form a duplicate-free record containing neither an X-API-Key nor a
Content-Type key, the outgoing headers carry the configured API key under
X-API-Key, carry every configured additional header, and carry the JSON
Content-Type exactly when the request body is truthy. -/
theorem request_headers_spec (client : HttpClient) (opts : RequestOptions) (k v : String)
    (hnodup : (client.customHeaders.map Prod.fst).Nodup)
    (hkey : "X-API-Key" ∉ client.customHeaders.map Prod.fst)
    (hct : "Content-Type" ∉ client.customHeaders.map Prod.fst) :
    getHeader (client.requestHeaders opts) "X-API-Key" = some client.apiKey ∧
    ((k, v) ∈ client.customHeaders → getHeader (client.requestHeaders opts) k = some v) ∧
    getHeader (client.requestHeaders opts) "Content-Type" =
      (if truthyOpt opts.body then some "application/json" else none) := by
  unfold HttpClient.requestHeaders buildHeaders
  cases htr : truthyOpt opts.body with
  | false =>
    simp only [Bool.false_eq_true, if_false]
    refine ⟨?_, ?_, ?_⟩
    · rw [getHeader_foldl_not_mem _ _ _ hkey]
      simp [getHeader]
    · intro hmem
      exact getHeader_foldl_mem _ _ _ _ hmem hnodup
    · rw [getHeader_foldl_not_mem _ _ _ hct]
      simp [getHeader]
  | true =>
    simp only [if_true]
    refine ⟨?_, ?_, ?_⟩
    · rw [getHeader_objInsert]
      rw [if_neg (by decide), getHeader_foldl_not_mem _ _ _ hkey]
      simp [getHeader]
    · intro hmem
      have hkct : k ≠ "Content-Type" := by
        intro hkc
        exact hct (hkc ▸ List.mem_map_of_mem Prod.fst hmem)
      rw [getHeader_objInsert, if_neg hkct]
      exact getHeader_foldl_mem _ _ _ _ hmem hnodup
    · rw [getHeader_objInsert]
      simp

/-- Witness for the amended C9: a client with one unrelated custom header
and a truthy body. -/
theorem request_headers_spec_witness :
    getHeader
      ((HttpClient.ofConfig
        { apiKey := "secret", baseUrl := none, timeout := none
          headers := some [("X-Trace", "1")] }).requestHeaders
        { body := some (.obj [("name", .str "app")]), params := none, responseType := .json })
      "X-API-Key" = some "secret" ∧
    getHeader
      ((HttpClient.ofConfig
        { apiKey := "secret", baseUrl := none, timeout := none
          headers := some [("X-Trace", "1")] }).requestHeaders
        { body := some (.obj [("name", .str "app")]), params := none, responseType := .json })
      "X-Trace" = some "1" ∧
    getHeader
      ((HttpClient.ofConfig
        { apiKey := "secret", baseUrl := none, timeout := none
          headers := some [("X-Trace", "1")] }).requestHeaders
        { body := some (.obj [("name", .str "app")]), params := none, responseType := .json })
      "Content-Type" = some "application/json" := by
  have h := request_headers_spec
    (HttpClient.ofConfig
      { apiKey := "secret", baseUrl := none, timeout := none
        headers := some [("X-Trace", "1")] })
    { body := some (.obj [("name", .str "app")]), params := none, responseType := .json }
    "X-Trace" "1" (by decide) (by decide) (by decide)
  exact ⟨h.1, h.2.1 (by simp [HttpClient.ofConfig]), h.2.2⟩

/-- C10: a falsy body value (zero, false, the empty string, null, and also
an absent body) is treated as no body at all: the headers are those of a
bodyless request, so no JSON Content-Type is set by the engine, and no body
payload is serialized or attached. -/
theorem request_falsy_body (client : HttpClient) (b : Option Json)
    (params : Option (List (String × Option ParamValue))) (rt : ResponseType)
    (h : truthyOpt b = false) :
    client.requestHeaders { body := b, params := params, responseType := rt } =
      client.requestHeaders { body := none, params := params, responseType := rt } ∧
    requestBodyPayload { body := b, params := params, responseType := rt } = none ∧
    truthy (.num 0) = false ∧ truthy (.bool false) = false ∧
    truthy (.str "") = false ∧ truthy .null = false := by
  refine ⟨?_, ?_, rfl, rfl, by decide, rfl⟩
  · have hnone : truthyOpt (none : Option Json) = false := rfl
    simp [HttpClient.requestHeaders, buildHeaders, h, hnone]
  · cases b with
    | none => rfl
    | some j =>
      simp only [truthyOpt] at h
      simp [requestBodyPayload, h]

/-- Helper: consecutive loop-condition evaluations of the polling loop are
separated by at least the poll interval, because the loop awaits a sleep of
that length between them. -/
theorem pollClock_step (startTime pollInterval : Nat) (extra : Nat → Nat) (n : Nat) :
    pollClock startTime pollInterval extra n + pollInterval ≤
      pollClock startTime pollInterval extra (n + 1) := by
  simp [pollClock]

/-- Helper: the polling clock never precedes the recorded start time. -/
theorem pollClock_ge_start (startTime pollInterval : Nat) (extra : Nat → Nat) (n : Nat) :
    startTime ≤ pollClock startTime pollInterval extra n := by
  induction n with
  | zero => simp [pollClock]
  | succ n ih =>
    have h := pollClock_step startTime pollInterval extra n
    omega

/-- Helper: n loop iterations advance the clock by at least n poll
intervals. -/
theorem pollClock_lower (startTime pollInterval : Nat) (extra : Nat → Nat) (n : Nat) :
    startTime + n * pollInterval ≤ pollClock startTime pollInterval extra n := by
  induction n with
  | zero => simp [pollClock]
  | succ n ih =>
    have h := pollClock_step startTime pollInterval extra n
    have h2 : (n + 1) * pollInterval = n * pollInterval + pollInterval := by ring
    omega

/-- Helper: a pending status inside the deadline makes the loop perform one
delay and move to the next iteration. -/
theorem waitLoop_pending (checks : Nat → AcmeStatus) (clock : Nat → Nat)
    (pollInterval timeout startTime fuel n delays : Nat)
    (hc : clock n - startTime < timeout) (hp : (checks n).status = "pending") :
    waitLoop checks clock pollInterval timeout startTime (fuel + 1) n delays =
      waitLoop checks clock pollInterval timeout startTime fuel (n + 1) (delays + 1) := by
  rw [waitLoop, if_pos hc]
  simp [hp]

/-- Helper: an active status inside the deadline makes the loop return that
status together with the number of delays performed. -/
theorem waitLoop_active (checks : Nat → AcmeStatus) (clock : Nat → Nat)
    (pollInterval timeout startTime fuel n delays : Nat)
    (hc : clock n - startTime < timeout) (ha : (checks n).status = "active") :
    waitLoop checks clock pollInterval timeout startTime (fuel + 1) n delays =
      some (.ok (checks n, delays)) := by
  rw [waitLoop, if_pos hc]
  simp [ha]

/-- Helper: a failed or error status inside the deadline makes the loop
raise CERTIFICATE_FAILED immediately. -/
theorem waitLoop_failed (checks : Nat → AcmeStatus) (clock : Nat → Nat)
    (pollInterval timeout startTime fuel n delays : Nat)
    (hc : clock n - startTime < timeout)
    (hf : (checks n).status = "failed" ∨ (checks n).status = "error") :
    waitLoop checks clock pollInterval timeout startTime (fuel + 1) n delays =
      some (.error
        { message := orFallback (checks n).message "Certificate issuance failed"
          code := "CERTIFICATE_FAILED", status := 0, details := none }) := by
  rw [waitLoop, if_pos hc]
  have hna : ¬ (checks n).status = "active" := by
    rcases hf with h | h <;> rw [h] <;> decide
  simp [hna, hf]

/-- Helper: once the deadline has elapsed, the loop raises TIMEOUT. -/
theorem waitLoop_deadline (checks : Nat → AcmeStatus) (clock : Nat → Nat)
    (pollInterval timeout startTime fuel n delays : Nat)
    (hc : timeout ≤ clock n - startTime) :
    waitLoop checks clock pollInterval timeout startTime (fuel + 1) n delays =
      some (.error
        { message := "Timeout waiting for certificate to become active"
          code := "TIMEOUT", status := 0, details := none }) := by
  rw [waitLoop, if_neg (Nat.not_lt.mpr hc)]

/-- Helper: if every status check stays pending, the loop always raises
TIMEOUT, as soon as enough iterations have run for the clock to pass the
deadline. -/
theorem waitLoop_all_pending (checks : Nat → AcmeStatus) (clock : Nat → Nat)
    (pollInterval timeout startTime : Nat)
    (hpend : ∀ n, (checks n).status = "pending")
    (hstart : ∀ n, startTime ≤ clock n)
    (hstep : ∀ n, clock n + pollInterval ≤ clock (n + 1)) :
    ∀ (f n delays : Nat), timeout ≤ clock n - startTime + f * pollInterval →
      waitLoop checks clock pollInterval timeout startTime (f + 1) n delays =
        some (.error
          { message := "Timeout waiting for certificate to become active"
            code := "TIMEOUT", status := 0, details := none }) := by
  intro f
  induction f with
  | zero =>
    intro n delays h
    exact waitLoop_deadline checks clock pollInterval timeout startTime 0 n delays
      (by simpa using h)
  | succ f ih =>
    intro n delays h
    by_cases hc : clock n - startTime < timeout
    · rw [waitLoop_pending checks clock pollInterval timeout startTime (f + 1) n delays hc
        (hpend n)]
      apply ih
      have h1 := hstep n
      have h2 := hstart n
      have h3 := hstart (n + 1)
      have h4 : (f + 1) * pollInterval = f * pollInterval + pollInterval := by ring
      omega
    · exact waitLoop_deadline checks clock pollInterval timeout startTime (f + 1) n delays
        (by omega)

/-- C7: for a positive poll interval, (1) a status sequence pending, pending,
active whose third check still lies inside the deadline makes waitForActive
return the active status after exactly two inter-poll delays; (2) each such
delay lasts at least the configured interval; (3) a sequence whose next
result is failed or error raises CERTIFICATE_FAILED while the deadline is
not exhausted; (4) a sequence that never leaves pending raises TIMEOUT. -/
theorem waitForActive_spec :
    (∀ (checks : Nat → AcmeStatus) (extra : Nat → Nat) (options : PollOptions)
        (startTime pollInterval timeout : Nat),
      options.pollInterval.getD 10000 = pollInterval →
      options.timeout.getD 300000 = timeout →
      1 ≤ pollInterval →
      (checks 0).status = "pending" →
      (checks 1).status = "pending" →
      (checks 2).status = "active" →
      pollClock startTime pollInterval extra 2 - startTime < timeout →
      AcmeCertificatesApi.waitForActive checks extra options startTime =
        some (.ok (checks 2, 2))) ∧
    (∀ (startTime pollInterval : Nat) (extra : Nat → Nat) (n : Nat),
      pollClock startTime pollInterval extra n + pollInterval ≤
        pollClock startTime pollInterval extra (n + 1)) ∧
    (∀ (checks : Nat → AcmeStatus) (extra : Nat → Nat) (options : PollOptions)
        (startTime pollInterval timeout : Nat),
      options.pollInterval.getD 10000 = pollInterval →
      options.timeout.getD 300000 = timeout →
      1 ≤ pollInterval →
      (checks 0).status = "pending" →
      ((checks 1).status = "failed" ∨ (checks 1).status = "error") →
      pollClock startTime pollInterval extra 1 - startTime < timeout →
      AcmeCertificatesApi.waitForActive checks extra options startTime =
        some (.error
          { message := orFallback (checks 1).message "Certificate issuance failed"
            code := "CERTIFICATE_FAILED", status := 0, details := none })) ∧
    (∀ (checks : Nat → AcmeStatus) (extra : Nat → Nat) (options : PollOptions)
        (startTime pollInterval timeout : Nat),
      options.pollInterval.getD 10000 = pollInterval →
      options.timeout.getD 300000 = timeout →
      1 ≤ pollInterval →
      (∀ n, (checks n).status = "pending") →
      AcmeCertificatesApi.waitForActive checks extra options startTime =
        some (.error
          { message := "Timeout waiting for certificate to become active"
            code := "TIMEOUT", status := 0, details := none })) := by
  refine ⟨?_, ?_, ?_, ?_⟩
  · intro checks extra options startTime pollInterval timeout hpi hto h1 hp0 hp1 ha2 hlt
    unfold AcmeCertificatesApi.waitForActive
    rw [hpi, hto]
    have s0 : pollClock startTime pollInterval extra 0 + pollInterval ≤
        pollClock startTime pollInterval extra 1 :=
      pollClock_step startTime pollInterval extra 0
    have s1 : pollClock startTime pollInterval extra 1 + pollInterval ≤
        pollClock startTime pollInterval extra 2 :=
      pollClock_step startTime pollInterval extra 1
    have g0 := pollClock_ge_start startTime pollInterval extra 0
    have g1 := pollClock_ge_start startTime pollInterval extra 1
    have low := pollClock_lower startTime pollInterval extra 2
    have h2pi : 2 * pollInterval = pollInterval + pollInterval := by ring
    obtain ⟨t, rfl⟩ : ∃ t, timeout = t + 3 := ⟨timeout - 3, by omega⟩
    rw [waitLoop_pending checks _ pollInterval (t + 3) startTime (t + 3) 0 0
      (by omega) hp0]
    rw [show t + 3 = (t + 2) + 1 by omega]
    rw [waitLoop_pending checks _ pollInterval (t + 3) startTime (t + 2) 1 1
      (by omega) hp1]
    rw [show t + 2 = (t + 1) + 1 by omega]
    exact waitLoop_active checks _ pollInterval (t + 3) startTime (t + 1) 2 2 hlt ha2
  · exact fun startTime pollInterval extra n => pollClock_step startTime pollInterval extra n
  · intro checks extra options startTime pollInterval timeout hpi hto h1 hp0 hf1 hlt
    unfold AcmeCertificatesApi.waitForActive
    rw [hpi, hto]
    have s0 : pollClock startTime pollInterval extra 0 + pollInterval ≤
        pollClock startTime pollInterval extra 1 :=
      pollClock_step startTime pollInterval extra 0
    have g0 := pollClock_ge_start startTime pollInterval extra 0
    have g1 := pollClock_ge_start startTime pollInterval extra 1
    have low := pollClock_lower startTime pollInterval extra 1
    have h1pi : 1 * pollInterval = pollInterval := by ring
    obtain ⟨t, rfl⟩ : ∃ t, timeout = t + 2 := ⟨timeout - 2, by omega⟩
    rw [waitLoop_pending checks _ pollInterval (t + 2) startTime (t + 2) 0 0
      (by omega) hp0]
    rw [show t + 2 = (t + 1) + 1 by omega]
    exact waitLoop_failed checks _ pollInterval (t + 2) startTime (t + 1) 1 1 hlt hf1
  · intro checks extra options startTime pollInterval timeout hpi hto h1 hpend
    unfold AcmeCertificatesApi.waitForActive
    rw [hpi, hto]
    apply waitLoop_all_pending checks _ pollInterval timeout startTime hpend
      (fun n => pollClock_ge_start startTime pollInterval extra n)
      (fun n => pollClock_step startTime pollInterval extra n)
    have hmul := Nat.mul_le_mul_left timeout h1
    omega

/-- Witness for C7: concrete runs with a one-millisecond interval: the
pending-pending-active sequence returns the active status after two delays,
the pending-failed sequence raises CERTIFICATE_FAILED with the check
message, and the always-pending sequence raises TIMEOUT. -/
theorem waitForActive_spec_witness :
    AcmeCertificatesApi.waitForActive checksActive extraZero
        { pollInterval := some 1, timeout := some 5 } 0 =
      some (.ok ({ status := "active", message := none }, 2)) ∧
    pollClock 0 1 extraZero 0 + 1 ≤ pollClock 0 1 extraZero 1 ∧
    AcmeCertificatesApi.waitForActive checksFailed extraZero
        { pollInterval := some 1, timeout := some 5 } 0 =
      some (.error
        { message := "CAA forbids issuance", code := "CERTIFICATE_FAILED"
          status := 0, details := none }) ∧
    AcmeCertificatesApi.waitForActive checksPending extraZero
        { pollInterval := some 1, timeout := some 3 } 0 =
      some (.error
        { message := "Timeout waiting for certificate to become active"
          code := "TIMEOUT", status := 0, details := none }) := by
  refine ⟨?_, ?_, ?_, ?_⟩
  · exact waitForActive_spec.1 checksActive extraZero
      { pollInterval := some 1, timeout := some 5 } 0 1 5 rfl rfl (by decide)
      rfl rfl rfl (by decide)
  · exact waitForActive_spec.2.1 0 1 extraZero 0
  · exact waitForActive_spec.2.2.1 checksFailed extraZero
      { pollInterval := some 1, timeout := some 5 } 0 1 5 rfl rfl (by decide)
      rfl (Or.inl rfl) (by decide)
  · exact waitForActive_spec.2.2.2 checksPending extraZero
      { pollInterval := some 1, timeout := some 3 } 0 1 3 rfl rfl (by decide)
      (fun n => rfl)

/-- Witness for C10: the number zero as a body produces a bodyless request. -/
theorem request_falsy_body_witness :
    sampleClient.requestHeaders { body := some (.num 0), params := none, responseType := .json } =
      sampleClient.requestHeaders { body := none, params := none, responseType := .json } ∧
    requestBodyPayload { body := some (.num 0), params := none, responseType := .json } = none ∧
    truthy (.num 0) = false ∧ truthy (.bool false) = false ∧
    truthy (.str "") = false ∧ truthy .null = false := by
  exact request_falsy_body sampleClient (some (.num 0)) none .json rfl

end CdnSdk
